import Mathlib

/-!
Shallow embedding of gwsurrogate/new/nodeFunction.py.

The numeric type of the Python code (float) is modelled by the reals;
np.log is Real.log.  Failures are modelled by Except over an error type
whose constructors record which Python exception the corresponding code
path raises.  The external collaborators (parametric_funcs.function_dict,
evaluate_fit.getFitEvaluator, gwtools.q_to_nu, and the SimpleH5Object
loader) are either abstracted as parameters or modelled from the spec,
as marked on each definition.
-/

/-- Failure outcomes of the Python code paths in nodeFunction.py.
Each constructor names the Python exception raised on that path. -/
inductive PyError
  /-- Python ValueError: tuple-unpacking arity mismatch, e.g. q, chi1z, chi2z = x. -/
  | valueError
  /-- Python KeyError (a subclass of LookupError): dict lookup failure. -/
  | keyError
  /-- Python IndexError (a subclass of LookupError): sequence index out of range. -/
  | indexError
  /-- Python TypeError: NoneType object is not callable, raised when
  NodeFunction.__call__ invokes self.node_function while it is None.
  This is the uninitialized-state failure of the spec taxonomy. -/
  | uninitialized
  /-- Python bare Exception raised by NodeFunction.__init__:
  node_function must be in NODE_CLASSES! -/
  | configError
  deriving DecidableEq, Repr

/-- Which of the modelled Python exceptions are instances of Python
LookupError: KeyError and IndexError are its subclasses. -/
def PyError.isLookupError : PyError → Bool
  | .keyError => true
  | .indexError => true
  | _ => false

/-- The six classes defined in nodeFunction.py, used to model Python runtime
class identity (type of a live instance). -/
inductive NodeClassTag
  | DummyNodeFunction
  | Polyfit1D
  | pySurrogateFit
  | NRHybSur3dq8Fit
  | NRHybSur2dq15Fit
  | MappedPolyFit1D_q10_q_to_nu
  deriving DecidableEq, Repr

/-- Python class attribute __name__ of each class. -/
def NodeClassTag.name : NodeClassTag → String
  | .DummyNodeFunction => "DummyNodeFunction"
  | .Polyfit1D => "Polyfit1D"
  | .pySurrogateFit => "pySurrogateFit"
  | .NRHybSur3dq8Fit => "NRHybSur3dq8Fit"
  | .NRHybSur2dq15Fit => "NRHybSur2dq15Fit"
  | .MappedPolyFit1D_q10_q_to_nu => "MappedPolyFit1D_q10_q_to_nu"

/-- Modelled from the spec: the external FitEvaluator collaborator
(gwsurrogate.eval_pysur.evaluate_fit, not under src) turns opaque fit data
into a callable mapping an input vector to a scalar; we take the opaque
fit payload to be that callable itself, and getFitEvaluator below is then
the identity. -/
abbrev FitData := List ℝ → ℝ

/-- Modelled from the spec: evaluate_fit.getFitEvaluator, which produces
the evaluation callable from the persisted fit payload. -/
def getFitEvaluator (fit_data : FitData) : List ℝ → ℝ := fit_data

/-- An entry of the external parametric-function table: a closed-form
function f(coefficients, x).  The coefficients argument is passed through
exactly as stored on the Polyfit1D instance, hence the Option. -/
abbrev ParamFunc := Option (List ℝ) → ℝ → ℝ

/-- Modelled from the spec: the external ParametricFunctionTable
(gwsurrogate.parametric_funcs.function_dict, not under src), a mapping
from function-name to closed-form function. -/
abbrev FuncTable := String → Option ParamFunc

/-- Live instances of the classes of nodeFunction.py, one constructor per
class, each carrying the instance attributes set by its __init__
(default None modelled by none). -/
inductive Variant
  /-- DummyNodeFunction: attribute val (the configured return value). -/
  | dummy (val : Option ℝ)
  /-- Polyfit1D: attributes function_name and coefs. -/
  | polyfit1D (function_name : Option String) (coefs : Option (List ℝ))
  /-- pySurrogateFit: attributes name and fit_data (fitFunc is derived
  from fit_data by getFitEvaluator, so it is not stored separately). -/
  | pySurrogateFit (name : Option String) (fit_data : Option FitData)
  /-- NRHybSur3dq8Fit, a subclass of pySurrogateFit with a remapping
  __call__ override. -/
  | nrHybSur3dq8 (name : Option String) (fit_data : Option FitData)
  /-- NRHybSur2dq15Fit, a subclass of pySurrogateFit with a remapping
  __call__ override. -/
  | nrHybSur2dq15 (name : Option String) (fit_data : Option FitData)
  /-- MappedPolyFit1D_q10_q_to_nu, a subclass of Polyfit1D with a
  remapping __call__ override. -/
  | mappedPolyfit1D (function_name : Option String) (coefs : Option (List ℝ))

/-- Python runtime class of a live instance (instance.__class__). -/
def Variant.classTag : Variant → NodeClassTag
  | .dummy _ => .DummyNodeFunction
  | .polyfit1D _ _ => .Polyfit1D
  | .pySurrogateFit _ _ => .pySurrogateFit
  | .nrHybSur3dq8 _ _ => .NRHybSur3dq8Fit
  | .nrHybSur2dq15 _ _ => .NRHybSur2dq15Fit
  | .mappedPolyfit1D _ _ => .MappedPolyFit1D_q10_q_to_nu

/-- NODE_CLASSES of nodeFunction.py: the fixed registry from string keys
to the registered classes, in source order. -/
def NODE_CLASSES : List (String × NodeClassTag) :=
  [("Dummy", .DummyNodeFunction),
   ("Polyfit1D", .Polyfit1D),
   ("SpEC_q10_non_spinning", .MappedPolyFit1D_q10_q_to_nu),
   ("NRHybSur3dq8Fit", .NRHybSur3dq8Fit),
   ("NRHybSur2dq15Fit", .NRHybSur2dq15Fit)]

/-- Default-constructed instance of a registered class, as produced by
the no-argument constructor call NODE_CLASSES[self.node_class]() in
NodeFunction.h5_prepare_subs: every attribute takes its default None. -/
def NodeClassTag.defaultInstance : NodeClassTag → Variant
  | .DummyNodeFunction => .dummy none
  | .Polyfit1D => .polyfit1D none none
  | .pySurrogateFit => .pySurrogateFit none none
  | .NRHybSur3dq8Fit => .nrHybSur3dq8 none none
  | .NRHybSur2dq15Fit => .nrHybSur2dq15 none none
  | .MappedPolyFit1D_q10_q_to_nu => .mappedPolyfit1D none none

/-- Modelled from the spec: gwtools.q_to_nu (external package), the
standard mass-ratio to symmetric-mass-ratio relation nu = q/(1+q)^2. -/
noncomputable def q_to_nu (q : ℝ) : ℝ := q / (1 + q) ^ 2

/-- np.mean of a vector: sum divided by length.  (numpy yields nan on the
empty vector; in the real-number model the division gives 0 there, a
branch no claim touches.) -/
noncomputable def npMean (x : List ℝ) : ℝ := x.sum / x.length

/-- Input remapping of NRHybSur3dq8Fit.__call__ (source lines 111-118):
from [q, chi1z, chi2z] to [np.log(q), chiHat, chi_a]. -/
noncomputable def nrHybSur3dq8_mapped (q chi1z chi2z : ℝ) : List ℝ :=
  let eta := q / (1 + q) ^ 2
  let chi_wtAvg := (q * chi1z + chi2z) / (1 + q)
  let chiHat := (chi_wtAvg - 38 * eta / 113 * (chi1z + chi2z)) / (1 - 76 * eta / 113)
  let chi_a := (chi1z - chi2z) / 2
  [Real.log q, chiHat, chi_a]

/-- Input remapping of NRHybSur2dq15Fit.__call__ (source lines 141-148):
from [q, chi1z] to [np.log(q), chiHat], with chi2z fixed at 0. -/
noncomputable def nrHybSur2dq15_mapped (q chi1z : ℝ) : List ℝ :=
  let chi2z : ℝ := 0
  let eta := q / (1 + q) ^ 2
  let chi_wtAvg := (q * chi1z + chi2z) / (1 + q)
  let chiHat := (chi_wtAvg - 38 * eta / 113 * (chi1z + chi2z)) / (1 - 76 * eta / 113)
  [Real.log q, chiHat]

/-- Polyfit1D.__call__ (source lines 70-72): func =
parametric_funcs.function_dict[self.function_name]; then
func(self.coefs, x[0]).  The dict lookup happens first (KeyError on a
missing name, including function_name None), then x[0] (IndexError on an
empty vector); any further elements of x are never read. -/
def polyfit1D_eval (table : FuncTable) (function_name : Option String)
    (coefs : Option (List ℝ)) (x : List ℝ) : Except PyError ℝ :=
  match function_name with
  | none => .error .keyError
  | some n =>
    match table n with
    | none => .error .keyError
    | some func =>
      match x with
      | [] => .error .indexError
      | x0 :: _ => .ok (func coefs x0)

/-- Evaluation behaviour, per class, of the __call__ methods of
nodeFunction.py.  For the pySurrogateFit family, fit_data none marks the
unusable fitFunc obtained from an absent payload; no claim exercises that
branch on a well-formed arity.  For MappedPolyFit1D_q10_q_to_nu the
source computes 4*gwtools.q_to_nu(x) on the whole input vector with
numpy broadcasting, modelled as an elementwise map. -/
noncomputable def Variant.call (table : FuncTable) : Variant → List ℝ → Except PyError ℝ
  | .dummy val, x =>
    match val with
    | none => .ok (npMean x)
    | some v => .ok v
  | .polyfit1D fn coefs, x => polyfit1D_eval table fn coefs x
  | .pySurrogateFit _ fd, x =>
    match fd with
    | none => .error .uninitialized
    | some f => .ok (getFitEvaluator f x)
  | .nrHybSur3dq8 _ fd, x =>
    match x with
    | [q, chi1z, chi2z] =>
      match fd with
      | none => .error .uninitialized
      | some f => .ok (getFitEvaluator f (nrHybSur3dq8_mapped q chi1z chi2z))
    | _ => .error .valueError
  | .nrHybSur2dq15 _ fd, x =>
    match x with
    | [q, chi1z] =>
      match fd with
      | none => .error .uninitialized
      | some f => .ok (getFitEvaluator f (nrHybSur2dq15_mapped q chi1z))
    | _ => .error .valueError
  | .mappedPolyfit1D fn coefs, x =>
    polyfit1D_eval table fn coefs (x.map (fun q => 4 * q_to_nu q))

/-- State of the NodeFunction holder of nodeFunction.py: a name, an
optional held variant instance, and the optional registry key
self.node_class. -/
structure NodeFunction where
  name : String
  node_function : Option Variant
  node_class : Option String

/-- NodeFunction.__init__ (source lines 189-203): stores name and
node_function, sets node_class to None, and when a variant instance is
supplied performs the reverse registry lookup by comparing the runtime
class name of the instance with each registered class name in turn (the
last match wins, as in the Python dict loop); if no registered class
matches, raises Exception. -/
def NodeFunction.init (name : String) (node_function : Option Variant) :
    Except PyError NodeFunction :=
  match node_function with
  | none => .ok ⟨name, none, none⟩
  | some v =>
    let key := NODE_CLASSES.foldl
      (fun acc kv => if v.classTag.name == kv.2.name then some kv.1 else acc) none
    match key with
    | none => .error .configError
    | some k => .ok ⟨name, some v, some k⟩

/-- NodeFunction.__call__ (source lines 205-206): return
self.node_function(x).  When node_function is None, Python raises
TypeError (NoneType object is not callable): the uninitialized-state
failure. -/
noncomputable def NodeFunction.call (table : FuncTable) (nf : NodeFunction)
    (x : List ℝ) : Except PyError ℝ :=
  match nf.node_function with
  | none => .error .uninitialized
  | some v => v.call table x

/-- NodeFunction.h5_prepare_subs (source lines 208-209):
self.node_function = NODE_CLASSES[self.node_class]().  Dict lookup raises
KeyError when node_class is None or is not a registered key; otherwise a
fresh default-constructed instance of the registered class is stored. -/
def NodeFunction.h5_prepare_subs (nf : NodeFunction) : Except PyError NodeFunction :=
  match nf.node_class with
  | none => .error .keyError
  | some k =>
    match NODE_CLASSES.find? (fun kv => kv.1 == k) with
    | none => .error .keyError
    | some kv => .ok { nf with node_function := some kv.2.defaultInstance }

/-- Modelled from the spec: the SimpleH5Object loader
(gwsurrogate.new.saveH5Object, not under src) which, after
h5_prepare_subs has built the fresh default instance selected by the
registry key, populates that instance's own fields from the persisted
payload of the same class.  We model the payload as the populated
instance state it induces; the loader overwrites the fresh instance of
the matching class with it. -/
def NodeFunction.reconstruct (nf : NodeFunction) (payload : Variant) :
    Except PyError NodeFunction :=
  match nf.h5_prepare_subs with
  | .error e => .error e
  | .ok nf2 =>
    let upd := nf2.node_function.map
      (fun fresh => if fresh.classTag = payload.classTag then payload else fresh)
    .ok { nf2 with node_function := upd }

/-- The message filtered in NRHybSur3dq8Fit.__call__ and
NRHybSur2dq15Fit.__call__ (source lines 126-127 and 156-157). -/
def gprWarnMsg : String :=
  "Predicted variances smaller than 0. Setting those variances to 0."

/-- An ignore entry of the Python warnings filter list, as installed by
warnings.filterwarnings with a message pattern matched at the start of
the warning text. -/
structure WarnFilter where
  message : String

/-- The ambient warnings.filters state: the list of active ignore
filters. -/
abbrev WarnState := List WarnFilter

/-- A warning text is suppressed when some active filter pattern matches
it at the start (warnings.filterwarnings message patterns are anchored at
the start of the warning text; matching is modelled on the character
lists). -/
def suppressedBy (filters : WarnState) (w : String) : Bool :=
  filters.any (fun f => f.message.data.isPrefixOf w.data)

/-- Warning-level model of the fit evaluator: the value together with the
warning messages the evaluation emits. -/
abbrev FitDataW := List ℝ → ℝ × List String

/-- Warning-level model of NRHybSur3dq8Fit.__call__ (source lines
110-129): after the arity check and remapping, warnings.catch_warnings
saves the ambient filter state, warnings.filterwarnings inserts an
ignore filter for the GPR message, the delegated fit evaluation runs
under the extended filters (its surviving warnings are those not
suppressed), and leaving the with-block restores the saved state. -/
noncomputable def nrHybSur3dq8_callW (fd : FitDataW) (x : List ℝ)
    (filters : WarnState) : Except PyError (ℝ × List String) × WarnState :=
  match x with
  | [q, chi1z, chi2z] =>
    let saved := filters
    let inner := { message := gprWarnMsg } :: filters
    let r := fd (nrHybSur3dq8_mapped q chi1z chi2z)
    (.ok (r.1, r.2.filter (fun w => !(suppressedBy inner w))), saved)
  | _ => (.error .valueError, filters)

/-- Warning-level model of NRHybSur2dq15Fit.__call__ (source lines
140-159), with the same scoped filter handling as the 3d variant. -/
noncomputable def nrHybSur2dq15_callW (fd : FitDataW) (x : List ℝ)
    (filters : WarnState) : Except PyError (ℝ × List String) × WarnState :=
  match x with
  | [q, chi1z] =>
    let saved := filters
    let inner := { message := gprWarnMsg } :: filters
    let r := fd (nrHybSur2dq15_mapped q chi1z)
    (.ok (r.1, r.2.filter (fun w => !(suppressedBy inner w))), saved)
  | _ => (.error .valueError, filters)

/-- A concrete parametric-function table used by concrete witnesses: one
entry named polyval_1d mapping everything to 0. -/
noncomputable def table0 : FuncTable :=
  fun s => if s = "polyval_1d" then some (fun _ _ => 0) else none

/-- A concrete fit evaluator used by concrete witnesses. -/
noncomputable def fd0 : FitData := fun _ => 0

/-- A concrete warning-emitting fit evaluator used by concrete witnesses:
it emits the GPR warning and one unrelated warning. -/
noncomputable def fdw : FitDataW :=
  fun _ => (0, [gprWarnMsg, "unrelated warning"])

/-- Evaluation of Polyfit1D reads only the head of its input vector:
appending further elements leaves the result unchanged. -/
theorem polyfit1D_eval_cons (table : FuncTable) (fn : Option String)
    (coefs : Option (List ℝ)) (a : ℝ) (xs : List ℝ) :
    polyfit1D_eval table fn coefs (a :: xs) = polyfit1D_eval table fn coefs [a] := by
  cases fn with
  | none => rfl
  | some n => cases htn : table n <;> simp [polyfit1D_eval, htn]

/-- C1: for every three-element input [q, chi1z, chi2z] with q positive and
the denominators nonzero, NRHybSur3dq8Fit passes to its delegated fit
evaluator exactly [ln q, chiHat, chi_a] with eta = q/(1+q)^2,
chi_wtAvg = (q*chi1z + chi2z)/(1+q),
chiHat = (chi_wtAvg - (38*eta/113)*(chi1z+chi2z))/(1 - 76*eta/113),
chi_a = (chi1z - chi2z)/2. -/
theorem NRHybSur3dq8Fit_maps_input (table : FuncTable) (nm : Option String)
    (fd : FitData) (q chi1z chi2z : ℝ) (hq : 0 < q) (hden1 : 1 + q ≠ 0)
    (hden2 : 1 - 76 * (q / (1 + q) ^ 2) / 113 ≠ 0) :
    Variant.call table (.nrHybSur3dq8 nm (some fd)) [q, chi1z, chi2z]
      = .ok (fd [Real.log q,
          ((q * chi1z + chi2z) / (1 + q)
             - 38 * (q / (1 + q) ^ 2) / 113 * (chi1z + chi2z))
            / (1 - 76 * (q / (1 + q) ^ 2) / 113),
          (chi1z - chi2z) / 2]) := rfl

/-- Concrete instance of the C1 theorem at q = 1, chi1z = chi2z = 1/2. -/
theorem NRHybSur3dq8Fit_maps_input_witness :
    Variant.call table0 (.nrHybSur3dq8 none (some fd0)) [(1 : ℝ), 1 / 2, 1 / 2]
      = .ok (fd0 [Real.log 1,
          ((1 * (1 / 2) + 1 / 2) / (1 + 1)
             - 38 * ((1 : ℝ) / (1 + 1) ^ 2) / 113 * (1 / 2 + 1 / 2))
            / (1 - 76 * ((1 : ℝ) / (1 + 1) ^ 2) / 113),
          ((1 : ℝ) / 2 - 1 / 2) / 2]) :=
  NRHybSur3dq8Fit_maps_input table0 none fd0 1 (1 / 2) (1 / 2) (by norm_num)
    (by norm_num) (by norm_num)

/-- C8: the two-parameter remapping of NRHybSur2dq15Fit is exactly the first
two components of the NRHybSur3dq8Fit remapping applied at chi2z = 0. -/
theorem NRHybSur2dq15_is_3d_at_chi2z_zero (q chi1z : ℝ) :
    nrHybSur2dq15_mapped q chi1z = (nrHybSur3dq8_mapped q chi1z 0).take 2 := rfl

/-- C4: a NodeFunction constructed empty holds no variant and no class key,
and evaluating it on any input fails with the uninitialized-state error
(Python TypeError from calling the absent variant). -/
theorem NodeFunction_uninitialized_eval (nm : String) (table : FuncTable)
    (x : List ℝ) :
    NodeFunction.init nm none = .ok ⟨nm, none, none⟩
  ∧ NodeFunction.call table ⟨nm, none, none⟩ x = .error .uninitialized :=
  ⟨rfl, rfl⟩

/-- C6: constructing a NodeFunction from a live variant whose class is not
registered in NODE_CLASSES fails at construction time with the
configuration error. -/
theorem NodeFunction_unregistered_config_error (nm : String) (v : Variant)
    (h : v.classTag ∉ NODE_CLASSES.map Prod.snd) :
    NodeFunction.init nm (some v) = .error .configError := by
  cases v
  case pySurrogateFit n fd => rfl
  all_goals simp [Variant.classTag, NODE_CLASSES] at h

/-- Concrete instance of the C6 theorem on the plain fit-wrapper base type
pySurrogateFit, which is not in the registry. -/
theorem NodeFunction_unregistered_config_error_witness :
    NodeFunction.init "x" (some (.pySurrogateFit none none)) = .error .configError :=
  NodeFunction_unregistered_config_error "x" (.pySurrogateFit none none) (by decide)

/-- C2: the registry has five keys, the keys are pairwise distinct, the
registered classes are pairwise distinct, and the mapping round-trips:
constructing a NodeFunction from a live instance of a registered class
sets the holder class key to exactly that class's own registry key. -/
theorem NODE_CLASSES_bijective_roundtrip :
    NODE_CLASSES.length = 5
  ∧ (NODE_CLASSES.map Prod.fst).Nodup
  ∧ (NODE_CLASSES.map Prod.snd).Nodup
  ∧ ∀ (nm : String) (kv : String × NodeClassTag) (v : Variant),
      kv ∈ NODE_CLASSES → v.classTag = kv.2 →
      NodeFunction.init nm (some v) = .ok ⟨nm, some v, some kv.1⟩ := by
  refine ⟨rfl, by decide, by decide, ?_⟩
  rintro nm ⟨k, t⟩ v hmem htag
  fin_cases hmem <;> cases v <;>
    first
      | rfl
      | simp [Variant.classTag] at htag

/-- Concrete instance of the C2 round-trip at the Dummy entry. -/
theorem NODE_CLASSES_bijective_roundtrip_witness :
    NodeFunction.init "n" (some (.dummy none))
      = .ok ⟨"n", some (.dummy none), some "Dummy"⟩ :=
  NODE_CLASSES_bijective_roundtrip.2.2.2 "n" ("Dummy", .DummyNodeFunction)
    (.dummy none) (by decide) rfl

/-- C3: reconstruction of a NodeFunction whose stored class key is
registered selects the class registered under that key and produces a
fresh live variant of that class carrying the supplied payload. -/
theorem NodeFunction_reconstruct_selects_registered (nm : String)
    (vf0 : Option Variant) (key : String) (tag : NodeClassTag) (payload : Variant)
    (hmem : (key, tag) ∈ NODE_CLASSES) (hpc : payload.classTag = tag) :
    NodeFunction.reconstruct ⟨nm, vf0, some key⟩ payload
      = .ok ⟨nm, some payload, some key⟩ := by
  fin_cases hmem <;> cases payload <;>
    simp_all [NodeFunction.reconstruct, NodeFunction.h5_prepare_subs, NODE_CLASSES,
      NodeClassTag.defaultInstance, Variant.classTag]

/-- Concrete instance of the C3 theorem at the Polyfit1D entry. -/
theorem NodeFunction_reconstruct_selects_registered_witness :
    NodeFunction.reconstruct ⟨"n", none, some "Polyfit1D"⟩ (.polyfit1D (some "f") none)
      = .ok ⟨"n", some (.polyfit1D (some "f") none), some "Polyfit1D"⟩ :=
  NodeFunction_reconstruct_selects_registered "n" none "Polyfit1D" .Polyfit1D
    (.polyfit1D (some "f") none) (by decide) rfl

/-- C5 counterexample: a two-element input, whose length differs from the
documented arity 1 of PolynomialFit1D, is evaluated successfully instead
of signalling an invalid-input error. -/
theorem polyfit1D_length_two_accepted :
    ([(3 : ℝ), 5].length ≠ 1)
  ∧ Variant.call table0 (.polyfit1D (some "polyval_1d") none) [(3 : ℝ), 5]
      = .ok 0 := by
  refine ⟨by simp, ?_⟩
  simp [Variant.call, polyfit1D_eval, table0]

/-- C5 amended: exact-arity enforcement holds for the tuple-unpacking
variants (3 for NRHybSur3dq8Fit, 2 for NRHybSur2dq15Fit); for Polyfit1D
and the q-to-nu remapped variant only the empty input fails (index
lookup), while any input with at least one element is accepted and the
extra elements are ignored. -/
theorem variant_arity_amended (table : FuncTable) (nm : Option String)
    (fd : Option FitData) (coefs : Option (List ℝ)) :
    (∀ x : List ℝ, x.length ≠ 3 →
        Variant.call table (.nrHybSur3dq8 nm fd) x = .error .valueError)
  ∧ (∀ x : List ℝ, x.length ≠ 2 →
        Variant.call table (.nrHybSur2dq15 nm fd) x = .error .valueError)
  ∧ (∀ n f, table n = some f →
      Variant.call table (.polyfit1D (some n) coefs) [] = .error .indexError
      ∧ Variant.call table (.mappedPolyfit1D (some n) coefs) [] = .error .indexError
      ∧ ∀ (a : ℝ) (xs : List ℝ),
          Variant.call table (.polyfit1D (some n) coefs) (a :: xs) = .ok (f coefs a)
          ∧ Variant.call table (.mappedPolyfit1D (some n) coefs) (a :: xs)
              = .ok (f coefs (4 * q_to_nu a))) := by
  refine ⟨?_, ?_, ?_⟩
  · intro x hx
    match x with
    | [] => rfl
    | [a] => rfl
    | [a, b] => rfl
    | [a, b, c] => exact absurd rfl hx
    | a :: b :: c :: d :: t => rfl
  · intro x hx
    match x with
    | [] => rfl
    | [a] => rfl
    | [a, b] => exact absurd rfl hx
    | a :: b :: c :: t => rfl
  · intro n f hf
    refine ⟨?_, ?_, fun a xs => ⟨?_, ?_⟩⟩ <;>
      simp [Variant.call, polyfit1D_eval, hf]

/-- Concrete instance of the amended C5 theorem: a one-element input to
NRHybSur3dq8Fit signals the arity error. -/
theorem variant_arity_amended_witness :
    Variant.call table0 (.nrHybSur3dq8 none none) [(1 : ℝ)] = .error .valueError :=
  (variant_arity_amended table0 none none none).1 [1] (by simp)

/-- C7: the two failed-lookup paths surface a Python LookupError directly:
reconstruction preparation with a class key absent from the registry
raises KeyError, and Polyfit1D evaluation with a function name absent
from the parametric-function table raises KeyError; KeyError is a
LookupError subclass. -/
theorem lookup_errors_surface (nm : String) (vf0 : Option Variant) (key : String)
    (table : FuncTable) (n : String) (coefs : Option (List ℝ)) (x : List ℝ)
    (hkey : key ∉ NODE_CLASSES.map Prod.fst) (hn : table n = none) :
    (NodeFunction.h5_prepare_subs ⟨nm, vf0, some key⟩ = .error .keyError
      ∧ PyError.keyError.isLookupError = true)
  ∧ (Variant.call table (.polyfit1D (some n) coefs) x = .error .keyError
      ∧ PyError.keyError.isLookupError = true) := by
  refine ⟨⟨?_, rfl⟩, ?_, rfl⟩
  · have hfind : NODE_CLASSES.find? (fun kv => kv.1 == key) = none := by
      apply List.find?_eq_none.mpr
      intro kv hkv
      simp only [beq_iff_eq]
      intro hkeq
      exact hkey (hkeq ▸ List.mem_map_of_mem Prod.fst hkv)
    simp [NodeFunction.h5_prepare_subs, hfind]
  · simp [Variant.call, polyfit1D_eval, hn]

/-- Concrete instance of the C7 theorem at the unregistered key nope. -/
theorem lookup_errors_surface_witness :
    NodeFunction.h5_prepare_subs ⟨"n", none, some "nope"⟩ = .error .keyError :=
  ((lookup_errors_surface "n" none "nope" table0 "unknown" none []
    (by decide) (by rfl)).1).1

/-- C9: evaluating the physics-remapped fit variants leaves the ambient
warning-filter state unchanged afterwards, and during the single
delegated fit call exactly the warnings matching the known-benign
GPR message are additionally suppressed: any other emitted warning is
shown precisely when the ambient filters do not already suppress it,
while warnings matching the GPR message are never shown. -/
theorem warn_suppression_scoped (fd3 fd2 : FitDataW) (q c1 c2 : ℝ)
    (filters : WarnState) (w wg : String)
    (hw : gprWarnMsg.data.isPrefixOf w.data = false)
    (hwg : gprWarnMsg.data.isPrefixOf wg.data = true) :
    ((nrHybSur3dq8_callW fd3 [q, c1, c2] filters).2 = filters
      ∧ (nrHybSur2dq15_callW fd2 [q, c1] filters).2 = filters)
  ∧ (∀ shown, (nrHybSur3dq8_callW fd3 [q, c1, c2] filters).1
        = .ok ((fd3 (nrHybSur3dq8_mapped q c1 c2)).1, shown) →
      (w ∈ shown ↔ w ∈ (fd3 (nrHybSur3dq8_mapped q c1 c2)).2
          ∧ suppressedBy filters w = false)
      ∧ wg ∉ shown)
  ∧ (∀ shown, (nrHybSur2dq15_callW fd2 [q, c1] filters).1
        = .ok ((fd2 (nrHybSur2dq15_mapped q c1)).1, shown) →
      (w ∈ shown ↔ w ∈ (fd2 (nrHybSur2dq15_mapped q c1)).2
          ∧ suppressedBy filters w = false)
      ∧ wg ∉ shown) := by
  refine ⟨⟨rfl, rfl⟩, ?_, ?_⟩ <;>
    · intro shown h
      simp only [nrHybSur3dq8_callW, nrHybSur2dq15_callW, Except.ok.injEq,
        Prod.mk.injEq, true_and] at h
      subst h
      constructor
      · simp [List.mem_filter, suppressedBy, hw]
      · simp [List.mem_filter, suppressedBy, hwg]

/-- Concrete instance of the C9 theorem: the ambient filter state is
restored after evaluating both remapped variants at a concrete input. -/
theorem warn_suppression_scoped_witness :
    (nrHybSur3dq8_callW fdw [(1 : ℝ), 0, 0] []).2 = ([] : WarnState)
  ∧ (nrHybSur2dq15_callW fdw [(1 : ℝ), 0] []).2 = ([] : WarnState) :=
  (warn_suppression_scoped fdw fdw 1 0 0 [] "unrelated warning" gprWarnMsg
    (by decide) (by decide)).1

/-- C10: Polyfit1D evaluation (and that of the q-to-nu remapped variant)
depends only on the first element of the input vector: two inputs with
the same head evaluate identically, and when the function name is in the
table any input with at least one element evaluates successfully, the
extra elements being ignored. -/
theorem polyfit1D_first_element_only (table : FuncTable) (fn : Option String)
    (coefs : Option (List ℝ)) (x y : List ℝ) (a : ℝ)
    (hx : x.head? = some a) (hy : y.head? = some a) :
    (Variant.call table (.polyfit1D fn coefs) x
        = Variant.call table (.polyfit1D fn coefs) y
      ∧ Variant.call table (.mappedPolyfit1D fn coefs) x
        = Variant.call table (.mappedPolyfit1D fn coefs) y)
  ∧ ∀ n f, fn = some n → table n = some f →
      Variant.call table (.polyfit1D fn coefs) x = .ok (f coefs a) := by
  cases x with
  | nil => exact absurd hx (by simp)
  | cons x0 xs =>
    cases y with
    | nil => exact absurd hy (by simp)
    | cons y0 ys =>
      simp only [List.head?_cons, Option.some.injEq] at hx hy
      refine ⟨⟨?_, ?_⟩, ?_⟩
      · show polyfit1D_eval table fn coefs (x0 :: xs)
            = polyfit1D_eval table fn coefs (y0 :: ys)
        rw [polyfit1D_eval_cons table fn coefs x0 xs,
          polyfit1D_eval_cons table fn coefs y0 ys, hx, hy]
      · show polyfit1D_eval table fn coefs ((x0 :: xs).map (fun q => 4 * q_to_nu q))
            = polyfit1D_eval table fn coefs ((y0 :: ys).map (fun q => 4 * q_to_nu q))
        rw [List.map_cons, List.map_cons,
          polyfit1D_eval_cons table fn coefs (4 * q_to_nu x0),
          polyfit1D_eval_cons table fn coefs (4 * q_to_nu y0), hx, hy]
      · intro n f hfn hf
        subst hfn
        simp [Variant.call, polyfit1D_eval, hf, hx]

/-- Concrete instance of the C10 theorem: two inputs sharing the head 3
evaluate identically under Polyfit1D. -/
theorem polyfit1D_first_element_only_witness :
    Variant.call table0 (.polyfit1D (some "polyval_1d") none) [(3 : ℝ), 5]
      = Variant.call table0 (.polyfit1D (some "polyval_1d") none) [(3 : ℝ)] :=
  ((polyfit1D_first_element_only table0 (some "polyval_1d") none [3, 5] [3] 3
    rfl rfl).1).1
